import Mathlib

/-!
Verification of the redock locked, versioned local state store and its
supporting utility functions, as implemented in `redock/utils.py`.

The Python code is shallowly embedded: the persisted pickle dictionary
becomes `StateDict`, the backing file's on-disk content becomes
`FileContent`, and the context-manager transaction
(`Config.__enter__` / `Config.__exit__` / `Config.load`) becomes the
function `withTransaction`.  Python exceptions are modelled with
`Except` / explicit outcome constructors.
-/

set_option autoImplicit false

/-- `CONFIG_VERSION = 1` (utils.py line 33): the version number of the
runtime configuration format. -/
def CONFIG_VERSION : Nat := 1

/-- The persisted state dictionary.  The Python code only ever touches the
keys `'version'` (an integer) and `'containers'` (a mapping from container
id strings to opaque serializable blobs, modelled as strings); each field
is `Option` because a Python dict may lack the key. -/
structure StateDict where
  version : Option Nat
  containers : Option (List (String × String))
deriving Repr, DecidableEq

/-- Serialized bytes as produced/consumed by `pickle`: either the pickled
form of some state dictionary, or garbage bytes that fail to deserialize. -/
inductive PickleBytes where
  | pickled (s : StateDict)
  | garbage (junk : Nat)
deriving Repr, DecidableEq

/-- `pickle.load` on a handle positioned at the given bytes: returns the
state dictionary, or fails (raising an exception, modelled as `none`). -/
def unpickleState : PickleBytes → Option StateDict
  | PickleBytes.pickled s => some s
  | PickleBytes.garbage _ => none

/-- Content of the backing file `CONFIG_FILE`: absent from disk, a
zero-length file (as created by `open(CONFIG_FILE, 'w')` before anything
is written), or a file holding serialized bytes. -/
inductive FileContent where
  | absent
  | empty
  | bytes (b : PickleBytes)
deriving Repr, DecidableEq

/-- `os.path.isfile(CONFIG_FILE)`: true for any existing file, including a
zero-length one. -/
def isfile : FileContent → Bool
  | FileContent.absent => false
  | FileContent.empty => true
  | FileContent.bytes _ => true

/-- `pickle.load(handle)` reading the whole file: succeeds only when the
file holds bytes that deserialize; a zero-length file raises (EOFError). -/
def readPickle : FileContent → Option StateDict
  | FileContent.bytes b => unpickleState b
  | FileContent.empty => none
  | FileContent.absent => none

/-- The version migration inlined in `Config.load` (utils.py lines 91-94):

    version = state.get('version', 0)
    if version == 0:
        state['containers'] = dict()
        state['version'] = CONFIG_VERSION
-/
def migrate (s : StateDict) : StateDict :=
  if s.version.getD 0 = 0 then
    { s with containers := some [], version := some CONFIG_VERSION }
  else s

/-- `Config.load` (utils.py lines 71-96) as invoked from `Config.__enter__`,
where `self.handle` is already an open handle on the file, so the
`(not handle) and os.path.isfile(CONFIG_FILE)` branch is never taken and
`close` stays `False`.  When `exists` is true the state is read with
`pickle.load(handle)` (which may raise, modelled as `none`); otherwise the
state starts as the empty dict.  The version migration then runs. -/
def Config.load (e : Bool) (file : FileContent) : Option StateDict :=
  if e then
    match readPickle file with
    | none => none
    | some s => some (migrate s)
  else some (migrate { version := none, containers := none })

/-- Process-local resource state after a transaction attempt: the content
of `CONFIG_FILE` on disk, whether the process still holds the exclusive
`fcntl.flock` on it, and whether `self.handle` is still an open handle. -/
structure Store where
  file : FileContent
  locked : Bool
  handleOpen : Bool
deriving Repr, DecidableEq

/-- How the `with Config() as state: ...` block finished: normally (state
saved), with the caller's exception propagating out of the block body, or
with an exception from `pickle.load` propagating out of `Config.__enter__`
itself. -/
inductive TxResult (E : Type) where
  | ok
  | callerError (e : E)
  | loadError
deriving Repr, DecidableEq

/-- Everything observable about one transaction attempt: the resulting
resource state, the state dictionary that was handed to the `with` body
(none when loading raised before the body ran), and how the block
finished. -/
structure TxOutcome (E : Type) where
  store : Store
  observed : Option StateDict
  result : TxResult E
deriving Repr, DecidableEq

/-- `open(CONFIG_FILE, 'r+' if exists else 'w')` in `Config.__enter__`
(utils.py line 100): mode `r+` leaves the content alone, mode `w`
creates/truncates the file to zero length. -/
def openConfigFile (disk : FileContent) : FileContent :=
  if isfile disk then disk else FileContent.empty

/-- `Config.__exit__` (utils.py lines 105-115), given the file content as
opened, the state dictionary `st` that was handed to the body, and the
body's result: on normal completion (`type is None`), `seek(0)`,
`pickle.dump(self.state, handle)`, `truncate()` — the file now holds
exactly the pickled new state; on a body exception the write is skipped
and the file keeps the content it had.  Both paths then run
`fcntl.flock(..., LOCK_UN)` and `close()`. -/
def saveOrDiscard {E : Type} (opened : FileContent) (st : StateDict) :
    Except E StateDict → TxOutcome E
  | Except.ok newState =>
      { store := { file := FileContent.bytes (PickleBytes.pickled newState),
                   locked := false, handleOpen := false },
        observed := some st,
        result := TxResult.ok }
  | Except.error e =>
      { store := { file := opened, locked := false, handleOpen := false },
        observed := some st,
        result := TxResult.callerError e }

/-- The transaction from the moment `Config.load` returned (or raised)
inside `Config.__enter__`.  If `pickle.load` raised (`none`), the
exception propagates out of `__enter__`, so Python never calls
`__exit__`: the lock stays held and the handle stays open.  Otherwise
the body `fn` runs on the loaded state and `__exit__` finishes the
transaction. -/
def afterLoad {E : Type} (opened : FileContent)
    (fn : StateDict → Except E StateDict) : Option StateDict → TxOutcome E
  | none =>
      { store := { file := opened, locked := true, handleOpen := true },
        observed := none,
        result := TxResult.loadError }
  | some st => saveOrDiscard opened st (fn st)

/-- One run of the scoped transaction `with Config() as state: fn(state)`
on a fresh `Config` object, over a disk whose `CONFIG_FILE` holds `disk`
(utils.py lines 98-115): `__enter__` computes
`exists = os.path.isfile(CONFIG_FILE)`, opens the file (`r+`/`w`),
acquires the exclusive lock with `fcntl.flock(..., LOCK_EX)` and runs
`self.state = self.load(exists=exists)`; then the body and `__exit__`
proceed as in `afterLoad`.  The body `fn` reads and mutates the state
dictionary in place: `fn` returning `Except.ok` with the mutated
dictionary models normal completion, `Except.error` models the body
raising after arbitrary in-memory mutation (the mutated dictionary is
then discarded). -/
def withTransaction {E : Type} (fn : StateDict → Except E StateDict)
    (disk : FileContent) : TxOutcome E :=
  afterLoad (openConfigFile disk) fn
    (Config.load (isfile disk) (openConfigFile disk))

theorem withTransaction_def {E : Type} (fn : StateDict → Except E StateDict)
    (disk : FileContent) :
    withTransaction fn disk =
      afterLoad (openConfigFile disk) fn
        (Config.load (isfile disk) (openConfigFile disk)) := rfl

theorem afterLoad_none {E : Type} (opened : FileContent)
    (fn : StateDict → Except E StateDict) :
    afterLoad opened fn none =
      { store := { file := opened, locked := true, handleOpen := true },
        observed := none,
        result := TxResult.loadError } := rfl

theorem afterLoad_some {E : Type} (opened : FileContent)
    (fn : StateDict → Except E StateDict) (st : StateDict) :
    afterLoad opened fn (some st) = saveOrDiscard opened st (fn st) := rfl

theorem saveOrDiscard_ok {E : Type} (opened : FileContent) (st ns : StateDict) :
    saveOrDiscard (E := E) opened st (Except.ok ns) =
      { store := { file := FileContent.bytes (PickleBytes.pickled ns),
                   locked := false, handleOpen := false },
        observed := some st,
        result := TxResult.ok } := rfl

theorem saveOrDiscard_error {E : Type} (opened : FileContent) (st : StateDict)
    (e : E) :
    saveOrDiscard opened st (Except.error e) =
      { store := { file := opened, locked := false, handleOpen := false },
        observed := some st,
        result := TxResult.callerError e } := rfl

/-- `summarize_id` (utils.py lines 249-260): `return id[:12]`. -/
def summarize_id (id : String) : String :=
  String.mk (id.data.take 12)

/-- C2: for a stored record whose version is absent or 0, the load-time
migration sets the version to 1 and unconditionally resets `containers`
to the empty mapping, even when a containers mapping is already present
(the code assigns `state['containers'] = dict()` without checking). -/
theorem C2_amended (s : StateDict) (h : s.version.getD 0 = 0) :
    migrate s = { s with containers := some [], version := some CONFIG_VERSION } := by
  unfold migrate
  rw [h]
  simp

/-- Witness for `C2_amended` at a concrete version-0 record. -/
theorem C2_amended_witness :
    ({ version := some 0, containers := some [("a", "b")] } : StateDict).version.getD 0 = 0 ∧
    migrate { version := some 0, containers := some [("a", "b")] } =
      { version := some CONFIG_VERSION, containers := some [] } :=
  ⟨rfl, C2_amended { version := some 0, containers := some [("a", "b")] } rfl⟩

/-- C2 counterexample: a version-0 record that already carries a containers
mapping does NOT keep it through migration; the mapping is overwritten by
the empty mapping, refuting the claim that `containers` is set to empty
only when absent. -/
theorem C2_counterexample :
    migrate { version := some 0, containers := some [("a", "b")] } =
      { version := some CONFIG_VERSION, containers := some [] } ∧
    (migrate { version := some 0, containers := some [("a", "b")] }).containers ≠
      ({ version := some 0, containers := some [("a", "b")] } : StateDict).containers := by
  constructor
  · rfl
  · intro h
    simp [migrate] at h

/-- C6: for any record whose stored version field is at least the current
target `CONFIG_VERSION = 1` (including unknown higher versions), the
migration is a no-op — the record is unchanged, the version is not
lowered, and running migration again also changes nothing. -/
theorem C6_migration_noop (s : StateDict) (v : Nat) (hv : s.version = some v)
    (h1 : 1 ≤ v) :
    migrate s = s ∧ migrate (migrate s) = s := by
  have hne : s.version.getD 0 ≠ 0 := by
    rw [hv]
    simp
    omega
  have h : migrate s = s := by
    unfold migrate
    simp [hne]
  exact ⟨h, by rw [h, h]⟩

/-- Witness for `C6_migration_noop` at a record with a future version 7. -/
theorem C6_migration_noop_witness :
    ({ version := some 7, containers := some [("c", "d")] } : StateDict).version = some 7 ∧
    1 ≤ 7 ∧
    (migrate { version := some 7, containers := some [("c", "d")] } =
       { version := some 7, containers := some [("c", "d")] } ∧
     migrate (migrate { version := some 7, containers := some [("c", "d")] }) =
       { version := some 7, containers := some [("c", "d")] }) :=
  ⟨rfl, by omega,
   C6_migration_noop { version := some 7, containers := some [("c", "d")] } 7 rfl (by omega)⟩

/-- The state dictionary handed to the body depends only on the disk
content, not on the body itself. -/
theorem wt_observed {E : Type} (fn : StateDict → Except E StateDict)
    (disk : FileContent) :
    (withTransaction fn disk).observed =
      Config.load (isfile disk) (openConfigFile disk) := by
  rw [withTransaction_def]
  cases hl : Config.load (isfile disk) (openConfigFile disk) with
  | none => rfl
  | some st =>
      rw [afterLoad_some]
      cases hfn : fn st with
      | ok ns => rw [saveOrDiscard_ok]
      | error e2 => rw [saveOrDiscard_error]

/-- When the body raised, `__exit__` skips the write: the file keeps
exactly the content it had right after `__enter__` opened it. -/
theorem wt_skipWrite {E : Type} (fn : StateDict → Except E StateDict)
    (disk : FileContent) (e : E)
    (h : (withTransaction fn disk).result = TxResult.callerError e) :
    (withTransaction fn disk).store.file = openConfigFile disk := by
  rw [withTransaction_def] at h ⊢
  cases hl : Config.load (isfile disk) (openConfigFile disk) with
  | none =>
      rw [hl, afterLoad_none] at h
      exact TxResult.noConfusion h
  | some st =>
      rw [hl, afterLoad_some] at h
      rw [afterLoad_some]
      cases hfn : fn st with
      | ok ns =>
          rw [hfn, saveOrDiscard_ok] at h
          exact TxResult.noConfusion h
      | error e2 => rw [saveOrDiscard_error]

/-- On both exit paths of `__exit__` (body succeeded or body raised) the
lock is released and the handle closed. -/
theorem wt_release {E : Type} (fn : StateDict → Except E StateDict)
    (disk : FileContent)
    (h : (withTransaction fn disk).result ≠ TxResult.loadError) :
    (withTransaction fn disk).store.locked = false ∧
      (withTransaction fn disk).store.handleOpen = false := by
  rw [withTransaction_def] at h ⊢
  cases hl : Config.load (isfile disk) (openConfigFile disk) with
  | none =>
      rw [hl, afterLoad_none] at h
      exact absurd rfl h
  | some st =>
      rw [afterLoad_some]
      cases hfn : fn st with
      | ok ns => rw [saveOrDiscard_ok]; exact ⟨rfl, rfl⟩
      | error e2 => rw [saveOrDiscard_error]; exact ⟨rfl, rfl⟩

/-- When loading raised, the exception escaped `__enter__`, `__exit__`
never ran, and the lock and handle are still held. -/
theorem wt_leak {E : Type} (fn : StateDict → Except E StateDict)
    (disk : FileContent)
    (h : (withTransaction fn disk).result = TxResult.loadError) :
    (withTransaction fn disk).store.locked = true ∧
      (withTransaction fn disk).store.handleOpen = true := by
  rw [withTransaction_def] at h ⊢
  cases hl : Config.load (isfile disk) (openConfigFile disk) with
  | none => rw [afterLoad_none]; exact ⟨rfl, rfl⟩
  | some st =>
      rw [hl, afterLoad_some] at h
      cases hfn : fn st with
      | ok ns =>
          rw [hfn, saveOrDiscard_ok] at h
          exact TxResult.noConfusion h
      | error e2 =>
          rw [hfn, saveOrDiscard_error] at h
          exact TxResult.noConfusion h

/-- C1 counterexample: on the internal-store-error exit path (a
deserialization failure during load), the transaction returns with the
exclusive lock still held and the file handle still open — `pickle.load`
raises inside `Config.__enter__`, so Python never invokes
`Config.__exit__` and the release code never runs.  This refutes the
claim that every exit path releases the lock and closes the handle. -/
theorem C1_counterexample :
    (withTransaction (E := Nat) (fun s => Except.ok s)
        (FileContent.bytes (PickleBytes.garbage 0))).result = TxResult.loadError ∧
    (withTransaction (E := Nat) (fun s => Except.ok s)
        (FileContent.bytes (PickleBytes.garbage 0))).store.locked = true ∧
    (withTransaction (E := Nat) (fun s => Except.ok s)
        (FileContent.bytes (PickleBytes.garbage 0))).store.handleOpen = true :=
  ⟨rfl, rfl, rfl⟩

/-- C1 amended: on the success and caller-failure exit paths the exclusive
lock is released and the file handle closed before the transaction
returns; but on an internal store error (deserialization failure during
load) the error propagates out of the acquire step and the lock and
handle remain held. -/
theorem C1_amended {E : Type} (fn : StateDict → Except E StateDict)
    (disk : FileContent) :
    ((withTransaction fn disk).result ≠ TxResult.loadError →
       (withTransaction fn disk).store.locked = false ∧
       (withTransaction fn disk).store.handleOpen = false) ∧
    ((withTransaction fn disk).result = TxResult.loadError →
       (withTransaction fn disk).store.locked = true ∧
       (withTransaction fn disk).store.handleOpen = true) :=
  ⟨wt_release fn disk, wt_leak fn disk⟩

/-- Witness for `C1_amended`: the success path on a fresh store releases
everything, while a corrupt file leaves the lock and handle held. -/
theorem C1_amended_witness :
    ((withTransaction (E := Nat) (fun s => Except.ok s)
        FileContent.absent).store.locked = false ∧
     (withTransaction (E := Nat) (fun s => Except.ok s)
        FileContent.absent).store.handleOpen = false) ∧
    ((withTransaction (E := Nat) (fun s => Except.ok s)
        (FileContent.bytes (PickleBytes.garbage 1))).store.locked = true ∧
     (withTransaction (E := Nat) (fun s => Except.ok s)
        (FileContent.bytes (PickleBytes.garbage 1))).store.handleOpen = true) :=
  ⟨(C1_amended (fun s => Except.ok s) FileContent.absent).1 (by decide),
   (C1_amended (fun s => Except.ok s)
      (FileContent.bytes (PickleBytes.garbage 1))).2 (by decide)⟩

/-- C3 counterexample: when no backing file existed before the transaction
and the caller's function fails, the on-disk state is NOT unchanged (an
empty placeholder file now exists where there was none) and a subsequent
transaction does not observe the pre-transaction state — it fails during
load (EOFError from `pickle.load` on the zero-length file) and hands the
caller nothing at all. -/
theorem C3_counterexample :
    (withTransaction (E := Nat) (fun _ => Except.error 5)
        FileContent.absent).result = TxResult.callerError 5 ∧
    (withTransaction (E := Nat) (fun _ => Except.error 5)
        FileContent.absent).store.file ≠ FileContent.absent ∧
    (withTransaction (E := Nat) (fun s => Except.ok s)
        ((withTransaction (E := Nat) (fun _ => Except.error 5)
            FileContent.absent).store.file)).observed ≠
      (withTransaction (E := Nat) (fun _ => Except.error 5)
          FileContent.absent).observed := by
  refine ⟨rfl, ?_, ?_⟩ <;> decide

/-- C3 amended: when the caller's function fails, the write is always
skipped; if a backing file existed before the transaction, its content is
unchanged and a subsequent transaction observes exactly the
pre-transaction state; if no backing file existed, a zero-length
placeholder file remains and a subsequent transaction fails during load
rather than observing the pre-transaction (default) state. -/
theorem C3_amended {E F : Type} (fn : StateDict → Except E StateDict)
    (g : StateDict → Except F StateDict) (disk : FileContent) (e : E)
    (hfail : (withTransaction fn disk).result = TxResult.callerError e) :
    (withTransaction fn disk).store.file = openConfigFile disk ∧
    (isfile disk = true →
       (withTransaction fn disk).store.file = disk ∧
       (withTransaction g ((withTransaction fn disk).store.file)).observed =
         (withTransaction fn disk).observed) ∧
    (isfile disk = false →
       (withTransaction fn disk).store.file = FileContent.empty ∧
       (withTransaction g ((withTransaction fn disk).store.file)).result =
         TxResult.loadError) := by
  have hskip := wt_skipWrite fn disk e hfail
  refine ⟨hskip, ?_, ?_⟩
  · intro hex
    have hopen : openConfigFile disk = disk := by
      unfold openConfigFile
      rw [hex]
      simp
    rw [hskip, hopen]
    exact ⟨rfl, by rw [wt_observed, wt_observed]⟩
  · intro hex
    have hopen : openConfigFile disk = FileContent.empty := by
      unfold openConfigFile
      rw [hex]
      simp
    rw [hskip, hopen]
    exact ⟨rfl, rfl⟩

/-- Witness for `C3_amended`: a failing body over an existing one-entry
record leaves the file unchanged and the next transaction observes the
same state. -/
theorem C3_amended_witness :
    (withTransaction (E := Nat) (fun _ => Except.error 9)
        (FileContent.bytes (PickleBytes.pickled
          { version := some 1, containers := some [("x", "y")] }))).result =
      TxResult.callerError 9 ∧
    isfile (FileContent.bytes (PickleBytes.pickled
      { version := some 1, containers := some [("x", "y")] })) = true ∧
    ((withTransaction (E := Nat) (fun _ => Except.error 9)
        (FileContent.bytes (PickleBytes.pickled
          { version := some 1, containers := some [("x", "y")] }))).store.file =
      FileContent.bytes (PickleBytes.pickled
        { version := some 1, containers := some [("x", "y")] }) ∧
     (withTransaction (E := Nat) (fun s => Except.ok s)
        ((withTransaction (E := Nat) (fun _ => Except.error 9)
            (FileContent.bytes (PickleBytes.pickled
              { version := some 1, containers := some [("x", "y")] }))).store.file)).observed =
       (withTransaction (E := Nat) (fun _ => Except.error 9)
          (FileContent.bytes (PickleBytes.pickled
            { version := some 1, containers := some [("x", "y")] }))).observed) :=
  ⟨rfl, rfl,
   ((C3_amended (fun _ => Except.error 9) (fun s => Except.ok s)
      (FileContent.bytes (PickleBytes.pickled
        { version := some 1, containers := some [("x", "y")] })) 9 rfl).2.1 rfl)⟩

/-- C4: when no backing file exists, any transaction observes the default
record (`version = CONFIG_VERSION = 1`, empty `containers`); and after a
transaction that adds one containers entry and succeeds, the next
transaction observes a record containing exactly that one entry. -/
theorem C4_initial_state {E F G : Type} (fn : StateDict → Except E StateDict)
    (g : StateDict → Except G StateDict) (k v : String) :
    (withTransaction fn FileContent.absent).observed =
      some { version := some CONFIG_VERSION, containers := some [] } ∧
    (withTransaction (E := F)
        (fun s => Except.ok { s with containers := some ((k, v) :: s.containers.getD []) })
        FileContent.absent).result = TxResult.ok ∧
    (withTransaction g
        ((withTransaction (E := F)
            (fun s => Except.ok { s with containers := some ((k, v) :: s.containers.getD []) })
            FileContent.absent).store.file)).observed =
      some { version := some CONFIG_VERSION, containers := some [(k, v)] } := by
  refine ⟨?_, rfl, ?_⟩
  · rw [wt_observed]
    rfl
  · rw [wt_observed]
    rfl

/-- C5: a backing file whose bytes do not deserialize makes the
transaction fail with the load-time deserialization error — an outcome
structurally distinct from any caller-produced failure (the caller's
function never even runs) — and the file's bytes are left unmodified. -/
theorem C5_corrupt {E : Type} (fn : StateDict → Except E StateDict)
    (b : PickleBytes) (h : unpickleState b = none) :
    (withTransaction fn (FileContent.bytes b)).result = TxResult.loadError ∧
    (∀ e : E, (withTransaction fn (FileContent.bytes b)).result ≠
       TxResult.callerError e) ∧
    (withTransaction fn (FileContent.bytes b)).store.file =
      FileContent.bytes b ∧
    (withTransaction fn (FileContent.bytes b)).observed = none := by
  have hload : Config.load (isfile (FileContent.bytes b))
      (openConfigFile (FileContent.bytes b)) = none := by
    simp [Config.load, isfile, openConfigFile, readPickle, h]
  rw [withTransaction_def, hload, afterLoad_none]
  exact ⟨rfl, fun e hc => TxResult.noConfusion hc, rfl, rfl⟩

/-- Witness for `C5_corrupt` at a concrete garbage file. -/
theorem C5_corrupt_witness :
    unpickleState (PickleBytes.garbage 7) = none ∧
    ((withTransaction (E := Nat) (fun s => Except.ok s)
        (FileContent.bytes (PickleBytes.garbage 7))).result = TxResult.loadError ∧
     (∀ e : Nat, (withTransaction (E := Nat) (fun s => Except.ok s)
        (FileContent.bytes (PickleBytes.garbage 7))).result ≠
          TxResult.callerError e) ∧
     (withTransaction (E := Nat) (fun s => Except.ok s)
        (FileContent.bytes (PickleBytes.garbage 7))).store.file =
       FileContent.bytes (PickleBytes.garbage 7) ∧
     (withTransaction (E := Nat) (fun s => Except.ok s)
        (FileContent.bytes (PickleBytes.garbage 7))).observed = none) :=
  ⟨rfl, C5_corrupt (fun s => Except.ok s) (PickleBytes.garbage 7) rfl⟩

/-- C7: `summarize_id` returns exactly the initial segment of its input of
length `min 12 (length input)` — the first 12 characters whenever the
input (a long hexadecimal identifier) has at least 12 characters.  It is
a pure function of its argument: modelled as a plain Lean function with
no state. -/
theorem C7_summarize_id (id : String) :
    (∃ rest : List Char, id.data = (summarize_id id).data ++ rest) ∧
    (summarize_id id).length = min 12 id.length := by
  constructor
  · exact ⟨id.data.drop 12, (List.take_append_drop 12 id.data).symm⟩
  · show (id.data.take 12).length = min 12 id.data.length
    exact List.length_take 12 id.data

/-- Host filesystem state touched by the utility functions: whether
`REDOCK_CONFIG_DIR` exists, whether `PRIVATE_SSH_KEY` / `PUBLIC_SSH_KEY`
exist, and the content of `UBUNTU_MIRROR_FILE` (`none` when absent). -/
structure HostFS where
  configDirExists : Bool
  privateKeyExists : Bool
  publicKeyExists : Bool
  mirrorFile : Option String
deriving Repr, DecidableEq

/-- `create_configuration_directory` (utils.py lines 273-279):
`os.makedirs(REDOCK_CONFIG_DIR)` unless the directory already exists. -/
def create_configuration_directory (fs : HostFS) : HostFS :=
  if fs.configDirExists then fs else { fs with configDirExists := true }

theorem ccd_privateKey (fs : HostFS) :
    (create_configuration_directory fs).privateKeyExists = fs.privateKeyExists := by
  unfold create_configuration_directory
  split <;> rfl

theorem ccd_mirrorFile (fs : HostFS) :
    (create_configuration_directory fs).mirrorFile = fs.mirrorFile := by
  unfold create_configuration_directory
  split <;> rfl

/-- Result of `generate_ssh_key_pair`: the filesystem afterwards and
whether the external `ssh-keygen` subprocess was spawned. -/
structure KeyGenOutcome where
  fs : HostFS
  invoked : Bool
deriving Repr, DecidableEq

/-- `generate_ssh_key_pair` (utils.py lines 187-202), parametrised by the
exit status `x` the external `ssh-keygen` tool would return: ensure the
configuration directory, return early if `PRIVATE_SSH_KEY` already
exists, otherwise spawn `ssh-keygen` (which on success creates both key
files) and raise (`Except.error` carrying the returncode) exactly when
`ssh_keygen.wait() != 0`. -/
def generate_ssh_key_pair (x : Nat) (fs : HostFS) : Except Nat KeyGenOutcome :=
  if (create_configuration_directory fs).privateKeyExists then
    Except.ok { fs := create_configuration_directory fs, invoked := false }
  else if x = 0 then
    Except.ok { fs := { create_configuration_directory fs with
                        privateKeyExists := true, publicKeyExists := true },
                invoked := true }
  else Except.error x

/-- `select_ubuntu_mirror`'s cache-filling step (utils.py lines 163-168):
when `UBUNTU_MIRROR_FILE` does not exist, fetch the first line `m` of
`http://mirrors.ubuntu.com/mirrors.txt`, strip it and write it followed
by a newline. -/
def ensureMirrorFile (m : String) (fs : HostFS) : HostFS :=
  if (create_configuration_directory fs).mirrorFile.isSome then
    create_configuration_directory fs
  else { create_configuration_directory fs with
         mirrorFile := some (m.trim ++ "\n") }

set_option linter.unusedVariables false in
/-- `select_ubuntu_mirror` (utils.py lines 154-172), parametrised by the
first line `m` the mirror-list download would yield.  The `force`
parameter is declared (`def select_ubuntu_mirror(force=False)`) but the
body never reads it.  After the cache-filling step the file is read back
and its stripped content returned. -/
def select_ubuntu_mirror (force : Bool) (m : String) (fs : HostFS) :
    HostFS × String :=
  (ensureMirrorFile m fs, ((ensureMirrorFile m fs).mirrorFile.getD "").trim)

/-- C8: `generate_ssh_key_pair` is idempotent — when the private key file
already exists (and hence the configuration directory containing it),
the call returns without invoking `ssh-keygen` and without modifying the
filesystem — and when the key is absent it invokes the tool and raises a
key-generation failure exactly when the tool exits non-zero. -/
theorem C8_keygen (x : Nat) (fs : HostFS) :
    (fs.privateKeyExists = true → fs.configDirExists = true →
       generate_ssh_key_pair x fs = Except.ok { fs := fs, invoked := false }) ∧
    (fs.privateKeyExists = false →
       (x = 0 →
          generate_ssh_key_pair x fs =
            Except.ok { fs := { create_configuration_directory fs with
                                privateKeyExists := true,
                                publicKeyExists := true },
                        invoked := true }) ∧
       (x ≠ 0 → generate_ssh_key_pair x fs = Except.error x)) := by
  constructor
  · intro hpk hdir
    have hccd : create_configuration_directory fs = fs := by
      unfold create_configuration_directory
      rw [hdir]
      simp
    unfold generate_ssh_key_pair
    rw [hccd, hpk]
    simp
  · intro hpk
    have hccdpk : (create_configuration_directory fs).privateKeyExists = false := by
      rw [ccd_privateKey, hpk]
    constructor
    · intro hx
      unfold generate_ssh_key_pair
      rw [hccdpk]
      simp [hx]
    · intro hx
      unfold generate_ssh_key_pair
      rw [hccdpk]
      simp [hx]

/-- Witness for `C8_keygen`: an existing key is a no-op; an absent key
invokes the tool, succeeding on exit 0 and raising on exit 3. -/
theorem C8_keygen_witness :
    generate_ssh_key_pair 5 { configDirExists := true, privateKeyExists := true,
                              publicKeyExists := true, mirrorFile := none } =
      Except.ok { fs := { configDirExists := true, privateKeyExists := true,
                          publicKeyExists := true, mirrorFile := none },
                  invoked := false } ∧
    generate_ssh_key_pair 0 { configDirExists := false, privateKeyExists := false,
                              publicKeyExists := false, mirrorFile := none } =
      Except.ok { fs := { configDirExists := true, privateKeyExists := true,
                          publicKeyExists := true, mirrorFile := none },
                  invoked := true } ∧
    generate_ssh_key_pair 3 { configDirExists := false, privateKeyExists := false,
                              publicKeyExists := false, mirrorFile := none } =
      Except.error 3 :=
  ⟨(C8_keygen 5 { configDirExists := true, privateKeyExists := true,
                  publicKeyExists := true, mirrorFile := none }).1 rfl rfl,
   ((C8_keygen 0 { configDirExists := false, privateKeyExists := false,
                   publicKeyExists := false, mirrorFile := none }).2 rfl).1 rfl,
   ((C8_keygen 3 { configDirExists := false, privateKeyExists := false,
                   publicKeyExists := false, mirrorFile := none }).2 rfl).2
     (by decide)⟩

/-- C9: `select_ubuntu_mirror` ignores its `force` parameter entirely —
for every filesystem state and every fetched mirror line, `force = true`
behaves identically to `force = false`; in particular `force = true`
never refreshes an existing cached mirror file. -/
theorem C9_force_ignored (m : String) (fs : HostFS) :
    select_ubuntu_mirror true m fs = select_ubuntu_mirror false m fs ∧
    (∀ c : String, fs.mirrorFile = some c →
       (select_ubuntu_mirror true m fs).1.mirrorFile = some c) := by
  refine ⟨rfl, ?_⟩
  intro c hc
  simp [select_ubuntu_mirror, ensureMirrorFile, ccd_mirrorFile, hc]

/-- Witness for `C9_force_ignored`: a cached mirror file is kept as-is
even with `force = true`. -/
theorem C9_force_ignored_witness :
    ({ configDirExists := true, privateKeyExists := false,
       publicKeyExists := false,
       mirrorFile := some "http://mirror.example/ubuntu/\n" } : HostFS).mirrorFile =
      some "http://mirror.example/ubuntu/\n" ∧
    (select_ubuntu_mirror true "ignored"
        { configDirExists := true, privateKeyExists := false,
          publicKeyExists := false,
          mirrorFile := some "http://mirror.example/ubuntu/\n" }).1.mirrorFile =
      some "http://mirror.example/ubuntu/\n" :=
  ⟨rfl,
   (C9_force_ignored "ignored"
      { configDirExists := true, privateKeyExists := false,
        publicKeyExists := false,
        mirrorFile := some "http://mirror.example/ubuntu/\n" }).2
     "http://mirror.example/ubuntu/\n" rfl⟩

/-- The error raised by `find_local_ip_addresses` when an address entry
lacks an `'addr'` key: `properties.get('addr')` yields `None` and
`None.startswith('127.')` raises `AttributeError`. -/
inductive NetErr where
  | attributeError
deriving Repr, DecidableEq

/-- `ip_addresses.add(address)`: Python set insertion, modelled on a
duplicate-free list. -/
def setAdd (x : String) (s : List String) : List String :=
  if x ∈ s then s else s ++ [x]

/-- The innermost loop body of `find_local_ip_addresses` (utils.py lines
216-225) on one properties dict, represented by its `'addr'` lookup
`properties.get('addr')`:

    address = properties.get('addr')
    if address.startswith('127.'):      # raises AttributeError on None
        continue
    if ':' in address:
        continue
    if address:
        ip_addresses.add(address)
-/
def processEntry (acc : List String) : Option String → Except NetErr (List String)
  | none => Except.error NetErr.attributeError
  | some address =>
      if address.startsWith "127." then Except.ok acc
      else if address.contains ':' then Except.ok acc
      else if address ≠ "" then Except.ok (setAdd address acc)
      else Except.ok acc

/-- `for properties in addresses: ...` — the loop over the entries of one
address family, aborting at the first raised exception. -/
def foldEntries (acc : List String) : List (Option String) → Except NetErr (List String)
  | [] => Except.ok acc
  | p :: ps =>
      match processEntry acc p with
      | Except.error e => Except.error e
      | Except.ok acc2 => foldEntries acc2 ps

/-- `for addresses in ifaddresses(name).values(): ...` — the loop over the
address families of one interface. -/
def foldFamilies (acc : List String) : List (List (Option String)) → Except NetErr (List String)
  | [] => Except.ok acc
  | g :: gs =>
      match foldEntries acc g with
      | Except.error e => Except.error e
      | Except.ok acc2 => foldFamilies acc2 gs

/-- One network interface as enumerated by `netifaces`: its name and, for
each address family, the list of address-properties dicts (each
represented by its `'addr'` lookup). -/
structure Iface where
  name : String
  families : List (List (Option String))
deriving Repr, DecidableEq

/-- `for name in sorted(interfaces(), key=str.lower): ...` — the outer
loop. -/
def foldIfaces (acc : List String) : List Iface → Except NetErr (List String)
  | [] => Except.ok acc
  | i :: is2 =>
      match foldFamilies acc i.families with
      | Except.error e => Except.error e
      | Except.ok acc2 => foldIfaces acc2 is2

/-- Insertion step of `sorted(interfaces(), key=str.lower)`. -/
def insertByName (x : Iface) : List Iface → List Iface
  | [] => [x]
  | y :: ys =>
      if x.name.toLower ≤ y.name.toLower then x :: y :: ys
      else y :: insertByName x ys

/-- `sorted(interfaces(), key=str.lower)` as an insertion sort. -/
def sortIfaces (l : List Iface) : List Iface := l.foldr insertByName []

/-- `find_local_ip_addresses` (utils.py lines 204-226), over the interface
enumeration the `netifaces` library would report. -/
def find_local_ip_addresses (netifs : List Iface) : Except NetErr (List String) :=
  foldIfaces [] (sortIfaces netifs)

theorem processEntry_ok (acc : List String) (a : String) :
    ∃ acc2, processEntry acc (some a) = Except.ok acc2 := by
  unfold processEntry
  cases h1 : a.startsWith "127." with
  | true => exact ⟨acc, by simp [h1]⟩
  | false =>
      cases h2 : a.contains ':' with
      | true => exact ⟨acc, by simp [h1, h2]⟩
      | false =>
          by_cases h3 : a = ""
          · exact ⟨acc, by simp [h1, h2, h3]⟩
          · exact ⟨setAdd a acc, by simp [h1, h2, h3]⟩

theorem foldEntries_error (ps : List (Option String)) :
    ∀ acc, (∃ p ∈ ps, p = none) →
      foldEntries acc ps = Except.error NetErr.attributeError := by
  induction ps with
  | nil =>
      intro acc h
      rcases h with ⟨p, hp, _⟩
      cases hp
  | cons q qs ih =>
      intro acc h
      cases q with
      | none => rfl
      | some a =>
          obtain ⟨acc2, hacc2⟩ := processEntry_ok acc a
          rcases h with ⟨p, hp, hpn⟩
          rcases List.mem_cons.mp hp with h1 | h1
          · rw [h1] at hpn
            cases hpn
          · unfold foldEntries
            rw [hacc2]
            exact ih acc2 ⟨p, h1, hpn⟩

theorem foldEntries_ok (ps : List (Option String)) :
    ∀ acc, (∀ p ∈ ps, p ≠ none) →
      ∃ acc2, foldEntries acc ps = Except.ok acc2 := by
  induction ps with
  | nil => intro acc _; exact ⟨acc, rfl⟩
  | cons q qs ih =>
      intro acc h
      cases q with
      | none => exact absurd rfl (h none (List.mem_cons_self none qs))
      | some a =>
          obtain ⟨acc2, hacc2⟩ := processEntry_ok acc a
          obtain ⟨acc3, hacc3⟩ := ih acc2 (fun p hp => h p (List.mem_cons_of_mem _ hp))
          refine ⟨acc3, ?_⟩
          unfold foldEntries
          rw [hacc2]
          exact hacc3

theorem foldFamilies_error (fams : List (List (Option String))) :
    ∀ acc, (∃ g ∈ fams, ∃ p ∈ g, p = none) →
      foldFamilies acc fams = Except.error NetErr.attributeError := by
  induction fams with
  | nil =>
      intro acc h
      rcases h with ⟨g, hg, _⟩
      cases hg
  | cons g gs ih =>
      intro acc h
      by_cases hg : ∃ p ∈ g, p = none
      · unfold foldFamilies
        rw [foldEntries_error g acc hg]
      · have hgall : ∀ p ∈ g, p ≠ none := fun p hp hpn => hg ⟨p, hp, hpn⟩
        obtain ⟨acc2, hacc2⟩ := foldEntries_ok g acc hgall
        rcases h with ⟨f, hf, hfp⟩
        rcases List.mem_cons.mp hf with h1 | h1
        · exact absurd (h1 ▸ hfp) hg
        · unfold foldFamilies
          rw [hacc2]
          exact ih acc2 ⟨f, h1, hfp⟩

theorem foldFamilies_ok (fams : List (List (Option String))) :
    ∀ acc, (∀ g ∈ fams, ∀ p ∈ g, p ≠ none) →
      ∃ acc2, foldFamilies acc fams = Except.ok acc2 := by
  induction fams with
  | nil => intro acc _; exact ⟨acc, rfl⟩
  | cons g gs ih =>
      intro acc h
      obtain ⟨acc2, hacc2⟩ := foldEntries_ok g acc (h g (List.mem_cons_self g gs))
      obtain ⟨acc3, hacc3⟩ := ih acc2 (fun f hf => h f (List.mem_cons_of_mem _ hf))
      refine ⟨acc3, ?_⟩
      unfold foldFamilies
      rw [hacc2]
      exact hacc3

theorem foldIfaces_error (l : List Iface) :
    ∀ acc, (∃ i ∈ l, ∃ g ∈ i.families, ∃ p ∈ g, p = none) →
      foldIfaces acc l = Except.error NetErr.attributeError := by
  induction l with
  | nil =>
      intro acc h
      rcases h with ⟨i, hi, _⟩
      cases hi
  | cons i is2 ih =>
      intro acc h
      by_cases hi : ∃ g ∈ i.families, ∃ p ∈ g, p = none
      · unfold foldIfaces
        rw [foldFamilies_error i.families acc hi]
      · have hiall : ∀ g ∈ i.families, ∀ p ∈ g, p ≠ none :=
          fun g hg p hp hpn => hi ⟨g, hg, p, hp, hpn⟩
        obtain ⟨acc2, hacc2⟩ := foldFamilies_ok i.families acc hiall
        rcases h with ⟨j, hj, hjp⟩
        rcases List.mem_cons.mp hj with h1 | h1
        · exact absurd (h1 ▸ hjp) hi
        · unfold foldIfaces
          rw [hacc2]
          exact ih acc2 ⟨j, h1, hjp⟩

theorem mem_insertByName (x z : Iface) (l : List Iface)
    (h : z = x ∨ z ∈ l) : z ∈ insertByName x l := by
  induction l with
  | nil =>
      rcases h with h | h
      · rw [h]; exact List.mem_cons_self x []
      · cases h
  | cons y ys ih =>
      unfold insertByName
      split
      · rcases h with h | h
        · rw [h]; exact List.mem_cons_self x (y :: ys)
        · exact List.mem_cons_of_mem _ h
      · rcases h with h | h
        · exact List.mem_cons_of_mem _ (ih (Or.inl h))
        · rcases List.mem_cons.mp h with h1 | h1
          · rw [h1]; exact List.mem_cons_self y (insertByName x ys)
          · exact List.mem_cons_of_mem _ (ih (Or.inr h1))

theorem mem_sortIfaces (z : Iface) (l : List Iface) (h : z ∈ l) :
    z ∈ sortIfaces l := by
  induction l with
  | nil => cases h
  | cons y ys ih =>
      unfold sortIfaces at ih ⊢
      rw [List.foldr_cons]
      rcases List.mem_cons.mp h with h1 | h1
      · exact mem_insertByName y z _ (Or.inl h1)
      · exact mem_insertByName y z _ (Or.inr (ih h1))

/-- C10: `find_local_ip_addresses` is not total over its inputs — for
every interface enumeration in which some address entry lacks an
`'addr'` value, the function raises `AttributeError` (from
`None.startswith('127.')`) instead of skipping the entry, because the
loopback test runs before the truthiness check that guards the
insertion. -/
theorem C10_missing_addr (netifs : List Iface)
    (h : ∃ i ∈ netifs, ∃ g ∈ i.families, ∃ p ∈ g, p = none) :
    find_local_ip_addresses netifs = Except.error NetErr.attributeError := by
  unfold find_local_ip_addresses
  rcases h with ⟨i, hi, hrest⟩
  exact foldIfaces_error (sortIfaces netifs) []
    ⟨i, mem_sortIfaces i netifs hi, hrest⟩

/-- Witness for `C10_missing_addr`: an enumeration whose second entry
lacks an `'addr'` value makes the function raise. -/
theorem C10_missing_addr_witness :
    (∃ i ∈ [({ name := "eth0", families := [[some "10.0.0.1", none]] } : Iface)],
       ∃ g ∈ i.families, ∃ p ∈ g, p = none) ∧
    find_local_ip_addresses
        [{ name := "eth0", families := [[some "10.0.0.1", none]] }] =
      Except.error NetErr.attributeError :=
  ⟨⟨{ name := "eth0", families := [[some "10.0.0.1", none]] },
    by simp, [some "10.0.0.1", none], by simp, none, by simp, rfl⟩,
   C10_missing_addr [{ name := "eth0", families := [[some "10.0.0.1", none]] }]
     ⟨{ name := "eth0", families := [[some "10.0.0.1", none]] },
      by simp, [some "10.0.0.1", none], by simp, none, by simp, rfl⟩⟩

/-- Witness for `C4_initial_state` at a concrete body and entry. -/
theorem C4_initial_state_witness :
    (withTransaction (E := Nat) (fun s => Except.ok s)
        FileContent.absent).observed =
      some { version := some CONFIG_VERSION, containers := some [] } ∧
    (withTransaction (E := Nat)
        (fun s => Except.ok { s with
          containers := some (("c1", "blob") :: s.containers.getD []) })
        FileContent.absent).result = TxResult.ok ∧
    (withTransaction (E := Nat) (fun s => Except.ok s)
        ((withTransaction (E := Nat)
            (fun s => Except.ok { s with
              containers := some (("c1", "blob") :: s.containers.getD []) })
            FileContent.absent).store.file)).observed =
      some { version := some CONFIG_VERSION, containers := some [("c1", "blob")] } :=
  C4_initial_state (fun s => Except.ok s) (fun s => Except.ok s) "c1" "blob"

/-- Witness for `C7_summarize_id` at a concrete 16-character identifier. -/
theorem C7_summarize_id_witness :
    (∃ rest : List Char,
       ("0123456789abcdef" : String).data =
         (summarize_id "0123456789abcdef").data ++ rest) ∧
    (summarize_id "0123456789abcdef").length =
      min 12 ("0123456789abcdef" : String).length :=
  C7_summarize_id "0123456789abcdef"
